import Mathlib

/-!
Verification of the gameplay-simulation core of `src/main.js` (a browser
arcade game): the `ObjectPool` recycler, the `PerformanceManager` quality
controller, and the `GameScene` scoring / miss / level-up / spawn logic.

Entities are modelled by natural-number identities (the order in which the
pool constructed them).  JavaScript arrays holding entities are modelled by
`List Nat`; for the idle stack (`this.pool`, mutated by `push`/`pop` at the
end) the Lean list is kept reversed so that the head is the top of the
stack, while the active queue (`this.active`, `push` at the end, `shift` at
the front) is kept in JavaScript order with the head being the oldest
element.  Wall-clock readings (`Date.now()`) and random draws
(`Math.random()`, `Phaser.Math.Between`) are explicit arguments.
Fractional game quantities are modelled by `ℚ`.
-/

namespace ChmpstrDrp

/-- State of an `ObjectPool` (src/main.js lines 65-163): the idle stack
`pool`, the active queue, the creation counter, the capacity bound and the
warning rate-limiter fields.  Entities are identified by the value of
`totalCreated` at the moment they were constructed. -/
structure PoolState where
  idle : List Nat
  active : List Nat
  totalCreated : Nat
  maxCapacity : Nat
  lastWarningTime : Int
  warningInterval : Int
  deriving Repr, DecidableEq

namespace ObjectPool

/-- `createManagedObject` (lines 136-140): constructs a fresh entity via the
factory and increments `totalCreated`.  The fresh entity's identity is the
old counter value. -/
def createManagedObject (s : PoolState) : Nat × PoolState :=
  (s.totalCreated, { s with totalCreated := s.totalCreated + 1 })

/-- The `ObjectPool` constructor (lines 66-84): `maxCapacity` defaults to
`initialSize * 2` when not supplied; `min initialSize maxCapacity` entities
are pre-created into the idle stack; `lastWarningTime` starts at `0` and
`warningInterval` at `2000`. -/
def init (initialSize : Nat) (maxCapacity? : Option Nat) : PoolState :=
  let maxCapacity := maxCapacity?.getD (initialSize * 2)
  let initialCount := min initialSize maxCapacity
  { idle := (List.range initialCount).reverse
    active := []
    totalCreated := initialCount
    maxCapacity := maxCapacity
    lastWarningTime := 0
    warningInterval := 2000 }

/-- `hasCapacityAvailable` (lines 133-135). -/
def hasCapacityAvailable (s : PoolState) : Bool :=
  s.active.length + s.idle.length < s.maxCapacity

/-- `recycleOldest` (lines 125-132): `active.shift()` removes the head
(oldest) of the active queue; returns `none` when active is empty. -/
def recycleOldest (s : PoolState) : Option Nat × PoolState :=
  match s.active with
  | [] => (none, s)
  | o :: rest => (some o, { s with active := rest })

/-- `reportCapacityWarning` (lines 141-154): the diagnostic is suppressed
when fewer than `warningInterval` milliseconds have elapsed since the last
emitted warning; otherwise it fires and records its own timestamp.  Returns
whether a warning was emitted. -/
def reportCapacityWarning (s : PoolState) (now : Int) : PoolState × Bool :=
  if now - s.lastWarningTime < s.warningInterval then (s, false)
  else ({ s with lastWarningTime := now }, true)

/-- `get` (lines 85-103): pop the idle stack if non-empty; otherwise create
when below capacity; otherwise recycle the oldest active entity with a
rate-limited warning; if even that yields nothing, create anyway with a
second (also rate-limited) warning.  The obtained entity is pushed onto the
end of the active queue.  Returns (entity, new state, warning emitted?). -/
def get (s : PoolState) (now : Int) : Nat × PoolState × Bool :=
  let step : Option Nat × PoolState × Bool :=
    match s.idle with
    | o :: rest => (some o, { s with idle := rest }, false)
    | [] =>
      if hasCapacityAvailable s then
        let (o, s1) := createManagedObject s
        (some o, s1, false)
      else
        let (o?, s1) := recycleOldest s
        let (s2, w) := reportCapacityWarning s1 now
        (o?, s2, w)
  match step with
  | (some o, s1, w) => (o, { s1 with active := s1.active ++ [o] }, w)
  | (none, s1, w) =>
    let (o, s2) := createManagedObject s1
    let (s3, w2) := reportCapacityWarning s2 now
    (o, { s3 with active := s3.active ++ [o] }, w || w2)

/-- `release` (lines 104-113): if the entity is in the active list, remove
its first occurrence (`indexOf`/`splice`), reset it and push it on the idle
stack; otherwise do nothing. -/
def release (s : PoolState) (o : Nat) : PoolState :=
  if o ∈ s.active then
    { s with active := s.active.erase o, idle := o :: s.idle }
  else s

/-- One externally-triggered pool operation: an acquire (with the wall-clock
reading the warning limiter would see) or a release of some entity. -/
inductive PoolOp where
  | get (now : Int)
  | release (o : Nat)
  deriving Repr, DecidableEq

/-- Apply one operation to the pool state. -/
def applyOp (s : PoolState) : PoolOp → PoolState
  | .get now => (get s now).2.1
  | .release o => release s o

/-- Run a sequence of pool operations from a given state. -/
def runOps (s : PoolState) (ops : List PoolOp) : PoolState :=
  ops.foldl applyOp s

/-- The combined contents of the two pool collections. -/
def entities (s : PoolState) : List Nat :=
  s.active ++ s.idle

/-- Like `applyOp`, but also collecting the timestamps of the diagnostic
warnings the pool emitted (second component). -/
def applyOpW (acc : PoolState × List Int) : PoolOp → PoolState × List Int
  | .get now =>
    let r := get acc.1 now
    (r.2.1, acc.2 ++ if r.2.2 then [now] else [])
  | .release o => (release acc.1 o, acc.2)

/-- Run a sequence of pool operations, collecting the timestamps of all
emitted capacity warnings in order. -/
def runOpsW (s : PoolState) (ops : List PoolOp) : PoolState × List Int :=
  ops.foldl applyOpW (s, [])

/-- Pool representation invariant: the two collections together hold exactly
one copy of every entity the pool has ever created. -/
def PoolInv (s : PoolState) : Prop :=
  (entities s).Perm (List.range s.totalCreated)

/-- Warning timestamps are spaced at least one rate-limit interval
(2000 ms) apart. -/
def WarnSep (ws : List Int) : Prop :=
  List.Chain' (fun a b => a + 2000 ≤ b) ws

/-- A concrete pool at capacity 10 with 10 active entities and an empty
idle stack, as in the displacement scenario. -/
def poolAtCap : PoolState :=
  { idle := []
    active := [0, 1, 2, 3, 4, 5, 6, 7, 8, 9]
    totalCreated := 10
    maxCapacity := 10
    lastWarningTime := 0
    warningInterval := 2000 }

end ObjectPool

/-- State of a `PerformanceManager` (src/main.js lines 2-64), omitting the
scene handle and the fixed `targetFPS` display value. -/
structure PerfState where
  frameCount : Nat
  lastTime : Int
  fps : Nat
  qualityLevel : Nat
  fpsHistory : List Nat
  autoOptimize : Bool
  deriving Repr, DecidableEq

namespace PerformanceManager

/-- The `PerformanceManager` constructor (lines 3-13). -/
def init : PerfState :=
  { frameCount := 0
    lastTime := 0
    fps := 60
    qualityLevel := 1
    fpsHistory := []
    autoOptimize := true }

/-- `maxHistoryLength` (line 11). -/
def maxHistoryLength : Nat := 60

/-- The arithmetic mean of the FPS window, as computed on line 30. -/
def avgFPS (hist : List Nat) : ℚ :=
  (hist.map fun n => (n : ℚ)).sum / hist.length

/-- `adjustQuality` (lines 29-38).  `applyQualitySettings` only publishes an
event and does not change manager state, so it is not modelled. -/
def adjustQuality (s : PerfState) : PerfState :=
  if avgFPS s.fpsHistory < 40 ∧ 0 < s.qualityLevel then
    { s with qualityLevel := s.qualityLevel - 1 }
  else if 58 < avgFPS s.fpsHistory ∧ s.qualityLevel < 2 then
    { s with qualityLevel := s.qualityLevel + 1 }
  else s

/-- `update` (lines 14-28): every frame increments `frameCount`; once 1000ms
have elapsed since `lastTime` the frame count becomes the new FPS sample,
it is pushed into the history (evicting the oldest sample beyond 60), and
quality is adjusted once at least 10 samples exist. -/
def update (s : PerfState) (time : Int) : PerfState :=
  let s1 := { s with frameCount := s.frameCount + 1 }
  if 1000 ≤ time - s1.lastTime then
    let fps := s1.frameCount
    let hist1 := s1.fpsHistory ++ [fps]
    let hist2 := if maxHistoryLength < hist1.length then hist1.tail else hist1
    let s2 := { s1 with
      fps := fps
      frameCount := 0
      lastTime := time
      fpsHistory := hist2 }
    if s2.autoOptimize ∧ 10 ≤ s2.fpsHistory.length then adjustQuality s2 else s2
  else s1

/-- Run a sequence of `update` calls with the given frame timestamps. -/
def runUpdates (s : PerfState) (times : List Int) : PerfState :=
  times.foldl update s

/-- The sampling part of `update` (lines 17-23) in isolation: record the
new FPS sample and evict the oldest beyond 60, without the quality
adjustment.  `update` equals this composed with the conditional
`adjustQuality` (proved below). -/
def pushSample (s : PerfState) (time : Int) : PerfState :=
  let fps := s.frameCount + 1
  let hist1 := s.fpsHistory ++ [fps]
  let hist2 := if maxHistoryLength < hist1.length then hist1.tail else hist1
  { frameCount := 0
    lastTime := time
    fps := fps
    qualityLevel := s.qualityLevel
    fpsHistory := hist2
    autoOptimize := s.autoOptimize }

/-- A concrete manager state at quality 1 holding nine FPS samples of 30,
about to take its tenth sample. -/
def perfNineSamples : PerfState :=
  { frameCount := 30
    lastTime := 0
    fps := 30
    qualityLevel := 1
    fpsHistory := [30, 30, 30, 30, 30, 30, 30, 30, 30]
    autoOptimize := true }

end PerformanceManager

/-- Item categories of `GameScene.spawnItem` (lines 6107-6142). -/
inductive ItemType where
  | regular
  | silver
  | gold
  | giant
  | bomb
  | freeze
  | health
  | mystery
  | glitch
  | multiplier
  | virus
  deriving Repr, DecidableEq

namespace GameScene

/-- `comboMultiplier` as computed on line 6875:
`Math.min(Math.floor(combo / 5) + 1, 5)`. -/
def comboMultiplier (combo : Nat) : Nat :=
  min (combo / 5 + 1) 5

/-- The run-state fields read and written by the scoring path of
`catchItem` (lines 6856-6881).  `fortuneAura` is whether
`equippedGear.utility === 'fortune_aura'`; `comboLevelBonus` and
`currencyLevelBonus` are the external `LevelingSystem.getStatBonuses`
factors `comboMultiplier` and `currencyMultiplier`. -/
structure ScoreState where
  combo : Nat
  maxCombo : Nat
  level : Nat
  score : Int
  earnedCurrency : Int
  overcharge : ℚ
  overchargeActive : Bool
  scoreMultiplier : ℚ
  fortuneAura : Bool
  comboLevelBonus : ℚ
  currencyLevelBonus : ℚ
  itemsCaught : Nat
  perfectStreak : Nat
  missStreak : Nat
  goldCaught : Nat
  deriving Repr, DecidableEq

/-- The scoring path of `catchItem` (lines 6856-6881), reached only by
non-bomb items that survive the type dispatch (regular, silver, gold,
giant, glitch, multiplier, and converter-converted bombs).  Display,
particle and achievement calls, the `recentCatches` bookkeeping and
`updatePerformanceScore` (modelled separately) do not touch these fields. -/
def catchScoringStep (s : ScoreState) (itemType : ItemType) (value : ℚ) :
    ScoreState :=
  let s1 := { s with itemsCaught := s.itemsCaught + 1, combo := s.combo + 1 }
  let s2 := { s1 with
    perfectStreak := s1.perfectStreak + 1
    maxCombo := max s1.maxCombo s1.combo
    missStreak := 0 }
  let s3 := if itemType = ItemType.gold then
      { s2 with goldCaught := s2.goldCaught + 1 } else s2
  let overchargeGain : ℚ :=
    if itemType = ItemType.gold then 15
    else if itemType = ItemType.giant then 25 else 5
  let s4 := { s3 with overcharge := min 100 (s3.overcharge + overchargeGain) }
  let cm : ℚ := (comboMultiplier s4.combo : ℚ)
  let ob : ℚ := if s4.overchargeActive then 2 else 1
  let fb : ℚ := if s4.fortuneAura then 3 / 2 else 1
  let points : Int :=
    ⌊value * (s4.level : ℚ) * cm * s4.scoreMultiplier * ob * fb *
      s4.comboLevelBonus⌋
  let currencyMult : ℚ :=
    (if s4.fortuneAura then 2 else 1) * s4.currencyLevelBonus
  { s4 with
    score := s4.score + points
    earnedCurrency :=
      s4.earnedCurrency + ⌊(points : ℚ) / 20 * currencyMult⌋ }

/-- The run-state fields read and written by `missItem`
(lines 6966-6996). -/
structure MissState where
  lives : Int
  combo : Nat
  shieldActive : Bool
  shieldUses : Int
  perfectStreak : Nat
  missStreak : Nat
  missedItems : Nat
  isGameOver : Bool
  deriving Repr, DecidableEq

/-- `missItem` (lines 6966-6996): bombs that fall past the bottom are
simply released; with an active shield one charge is consumed (the shield
expires at zero charges); otherwise the combo breaks, a life is lost and
the run ends at zero lives.  Sound, text, particle calls and
`updatePerformanceScore` (which touches none of these fields) are not
modelled; the pool release is modelled in the pool component. -/
def missItem (s : MissState) (itemType : ItemType) : MissState :=
  if itemType = ItemType.bomb then s
  else if s.shieldActive then
    let uses := s.shieldUses - 1
    { s with
      shieldUses := uses
      shieldActive := if uses ≤ 0 then false else s.shieldActive }
  else
    let s1 := { s with
      combo := 0
      perfectStreak := 0
      missStreak := s.missStreak + 1
      lives := s.lives - 1
      missedItems := s.missedItems + 1 }
    if s1.lives ≤ 0 then { s1 with isGameOver := true } else s1

/-- The run-state fields read and written by `levelUp` (lines 7442-7452)
and by the level-up trigger after a scoring catch (lines 6932-6934). -/
structure LevelUpState where
  score : Int
  level : Nat
  itemSpeed : ℚ
  spawnRate : ℚ
  spawnTimerDelay : ℚ
  isChaosMode : Bool
  deriving Repr, DecidableEq

/-- `levelUp` (lines 7442-7452): increment the level, add 20 to the item
speed, shrink the spawn interval by 100ms floored at 500ms, apply it to the
live spawn timer, and activate chaos mode on every 5th level
(`activateChaosMode`, line 7484, sets `isChaosMode`). -/
def levelUp (s : LevelUpState) : LevelUpState :=
  let s1 := { s with level := s.level + 1, itemSpeed := s.itemSpeed + 20 }
  let s2 := { s1 with spawnRate := max 500 (s1.spawnRate - 100) }
  let s3 := { s2 with spawnTimerDelay := s2.spawnRate }
  if s3.level % 5 = 0 then { s3 with isChaosMode := true } else s3

/-- The end of the scoring path of `catchItem` (lines 6879, 6932-6934): the
points are added to the score and `levelUp` fires exactly when the
resulting score is a positive multiple of 100. -/
def applyCatchPoints (s : LevelUpState) (points : Int) : LevelUpState :=
  let s1 := { s with score := s.score + points }
  if s1.score % 100 = 0 ∧ 0 < s1.score then levelUp s1 else s1

/-- The persisted difficulty setting read by `getDifficulty`
(lines 6381-6383). -/
inductive Difficulty where
  | easy
  | normal
  | hard
  deriving Repr, DecidableEq

/-- Base item speed per difficulty (line 7200). -/
def difficultyBaseSpeed : Difficulty → ℚ
  | Difficulty.easy => 150
  | Difficulty.hard => 250
  | Difficulty.normal => 200

/-- Base spawn interval per difficulty (line 7203). -/
def difficultyBaseSpawn : Difficulty → ℚ
  | Difficulty.easy => 2000
  | Difficulty.hard => 1000
  | Difficulty.normal => 1500

/-- The run-state fields read and written by `updatePerformanceScore`
(lines 7195-7206).  `recentCatchValues` holds the values of the catch
events currently inside the 10-second sliding window (`this.recentCatches`,
already filtered by the caller on line 6862). -/
structure PerfScoreState where
  recentCatchValues : List ℚ
  combo : Nat
  performanceScore : ℚ
  itemSpeed : ℚ
  spawnRate : ℚ
  spawnTimerDelay : ℚ
  difficulty : Difficulty
  deriving Repr, DecidableEq

/-- `updatePerformanceScore` (lines 7195-7206). -/
def updatePerformanceScore (s : PerfScoreState) : PerfScoreState :=
  let recentValue := s.recentCatchValues.sum
  let catchRate : ℚ := (s.recentCatchValues.length : ℚ) / 10
  let ps : ℚ :=
    min 10 ((catchRate + (s.combo : ℚ) * 0.1 + recentValue * 0.01) / 3)
  let speedAdjustment : ℚ := 1 + ps * 0.05
  let spawnAdjustment : ℚ := max 0.7 (1 - ps * 0.03)
  let rate : ℚ := max 500 (difficultyBaseSpawn s.difficulty * spawnAdjustment)
  { s with
    performanceScore := ps
    itemSpeed := difficultyBaseSpeed s.difficulty * speedAdjustment
    spawnRate := rate
    spawnTimerDelay := rate }

/-- The `recentCatches` bookkeeping of `catchItem` (lines 6858-6862): push
the catch event with the current wall-clock time, then drop events older
than 10 seconds. -/
def recentCatchesPush (recentCatches : List (Int × ℚ)) (value : ℚ)
    (now : Int) : List (Int × ℚ) :=
  (recentCatches ++ [(now, value)]).filter fun c => now - c.1 < 10000

/-- The gameplay fields assigned to a freshly spawned item
(lines 6144-6152). -/
structure Item where
  x : ℚ
  y : ℚ
  itemType : ItemType
  value : ℚ
  speed : ℚ
  deriving Repr, DecidableEq

/-- The item-type roll of `spawnItem` (lines 6110-6142): given the
`Math.random()` draw and the current base item speed, produce the spawned
type, value and speed. -/
def itemRoll (r : ℚ) (itemSpeed : ℚ) : ItemType × ℚ × ℚ :=
  if r < 0.13 then (ItemType.bomb, -50, itemSpeed)
  else if r < 0.22 then (ItemType.gold, 50, itemSpeed)
  else if r < 0.35 then (ItemType.silver, 20, itemSpeed)
  else if r < 0.40 then (ItemType.giant, 100, itemSpeed * 0.6)
  else if r < 0.43 then (ItemType.glitch, 30, itemSpeed)
  else if r < 0.46 then (ItemType.multiplier, 20, itemSpeed)
  else if r < 0.48 then (ItemType.virus, -30, itemSpeed)
  else if r < 0.50 then (ItemType.freeze, 25, itemSpeed)
  else if r < 0.52 then (ItemType.health, 0, itemSpeed)
  else if r < 0.54 then (ItemType.mystery, 0, itemSpeed)
  else (ItemType.regular, 10, itemSpeed)

/-- The random draws one `spawnItem` call consumes: the
`Phaser.Math.Between(1, 2)` chaos spawn-count draw, and per spawned item an
x-position draw and a `Math.random()` type draw. -/
structure SpawnDraw where
  count : Nat
  xs : List ℚ
  rands : List ℚ
  deriving Repr, DecidableEq

/-- The state read and written by `spawnItem` (lines 6100-6157): the items
pool (whose `active` list is aliased by `this.items`, line 5866), the items
placed so far this call, and the scene fields consulted. -/
structure SpawnState where
  pool : PoolState
  placed : List (Nat × Item)
  isChaosMode : Bool
  qualityLevel : Nat
  itemSpeed : ℚ
  deriving Repr, DecidableEq

/-- The spawn loop body of `spawnItem` (lines 6105-6156), run `n` times:
roll a type, acquire an entity from the items pool and assign its fields.
Pool warnings take a wall-clock reading; spawnItem does not read the clock,
so the warning limiter sees an arbitrary fixed reading, here `0`. -/
def spawnLoop : Nat → SpawnState → List ℚ → List ℚ → SpawnState
  | 0, s, _, _ => s
  | n + 1, s, xs, rs =>
    let x := xs.headD 0
    let r := rs.headD 1
    let roll := itemRoll r s.itemSpeed
    let g := ObjectPool.get s.pool 0
    let item : Item :=
      { x := x, y := -30, itemType := roll.1, value := roll.2.1,
        speed := roll.2.2 }
    let s1 := { s with pool := g.2.1, placed := s.placed ++ [(g.1, item)] }
    spawnLoop n s1 xs.tail rs.tail

/-- The concurrency cap of `spawnItem` (line 6103): 8 when the performance
quality level is 0, otherwise 15. -/
def spawnMaxItems (qualityLevel : Nat) : Nat :=
  if qualityLevel = 0 then 8 else 15

/-- `spawnItem` (lines 6100-6157): in chaos mode 1 or 2 items spawn per
call (the `Phaser.Math.Between(1, 2)` draw), otherwise exactly 1; the call
is a no-op when the active item count is at or above the cap. -/
def spawnItem (s : SpawnState) (d : SpawnDraw) : SpawnState :=
  let spawnCount := if s.isChaosMode then d.count else 1
  let maxItems := spawnMaxItems s.qualityLevel
  if maxItems ≤ s.pool.active.length then s
  else spawnLoop spawnCount s d.xs d.rands

/-- The operations of `GameScene` that write `this.lives`
(the only writes inside the scene, lines 5799, 6748, 6808, 6829, 6985,
7168): the health-item catch, the mystery extra-life outcome, an uncaught
bomb, an unshielded miss and an unshielded spike hazard. -/
inductive LifeOp where
  | healthCatch
  | mysteryExtraLife
  | bombCatch
  | missUnshielded
  | spikeHazard
  deriving Repr, DecidableEq

/-- Effect of each lives-writing operation on the lives counter: the two
life grants are clamped at 5 (`Math.min(this.lives + 1, 5)`), the rest
decrement. -/
def applyLifeOp (lives : Int) : LifeOp → Int
  | LifeOp.healthCatch => min (lives + 1) 5
  | LifeOp.mysteryExtraLife => min (lives + 1) 5
  | LifeOp.bombCatch => lives - 1
  | LifeOp.missUnshielded => lives - 1
  | LifeOp.spikeHazard => lives - 1

/-- Initial lives of a `GameScene` run (lines 6314 and 5799): 3, or 4 with
the `extraLife` upgrade. -/
def livesInit (extraLife : Bool) : Int :=
  if extraLife then 4 else 3

/-- The lives counter after a sequence of lives-writing operations from the
start of a run. -/
def runLives (extraLife : Bool) (ops : List LifeOp) : Int :=
  ops.foldl applyLifeOp (livesInit extraLife)

/-- The scoring fields at the start of a run (`resetGameState`,
lines 6310-6357) with no equipment or leveling bonuses. -/
def scoreBase : ScoreState :=
  { combo := 0
    maxCombo := 0
    level := 1
    score := 0
    earnedCurrency := 0
    overcharge := 0
    overchargeActive := false
    scoreMultiplier := 1
    fortuneAura := false
    comboLevelBonus := 1
    currencyLevelBonus := 1
    itemsCaught := 0
    perfectStreak := 0
    missStreak := 0
    goldCaught := 0 }

/-- The state after four consecutive catches of regular items (value 10)
from the start of a run. -/
def fourRegularCatches : ScoreState :=
  catchScoringStep
    (catchScoringStep
      (catchScoringStep
        (catchScoringStep scoreBase ItemType.regular 10)
        ItemType.regular 10)
      ItemType.regular 10)
    ItemType.regular 10

/-- A mid-run miss-state: 3 lives, a 7-catch combo, no shield. -/
def missBase : MissState :=
  { lives := 3
    combo := 7
    shieldActive := false
    shieldUses := 0
    perfectStreak := 2
    missStreak := 0
    missedItems := 0
    isGameOver := false }

/-- The miss-state at the start of a run without the start-shield upgrade:
3 lives, no shield. -/
def missStart : MissState :=
  { lives := 3
    combo := 0
    shieldActive := false
    shieldUses := 0
    perfectStreak := 0
    missStreak := 0
    missedItems := 0
    isGameOver := false }

/-- A level-up state with score 95, five points below the next level
threshold. -/
def levelNear : LevelUpState :=
  { score := 95
    level := 1
    itemSpeed := 200
    spawnRate := 1500
    spawnTimerDelay := 1500
    isChaosMode := false }

/-- A level-up state with score 90, ten points below the next level
threshold. -/
def levelTen : LevelUpState :=
  { score := 90
    level := 1
    itemSpeed := 200
    spawnRate := 1500
    spawnTimerDelay := 1500
    isChaosMode := false }

/-- A performance-score state with two recent catches (values 10 and 50)
and a 3-catch combo on normal difficulty. -/
def perfScoreSample : PerfScoreState :=
  { recentCatchValues := [10, 50]
    combo := 3
    performanceScore := 0
    itemSpeed := 200
    spawnRate := 1500
    spawnTimerDelay := 1500
    difficulty := Difficulty.normal }

/-- A spawn state with an empty playfield: one pre-created idle entity,
no active items, chaos off, quality 1. -/
def spawnQuiet : SpawnState :=
  { pool :=
      { idle := [0]
        active := []
        totalCreated := 1
        maxCapacity := 30
        lastWarningTime := 0
        warningInterval := 2000 }
    placed := []
    isChaosMode := false
    qualityLevel := 1
    itemSpeed := 200 }

/-- A spawn state with 14 active items (one below the 15 cap) during chaos
mode at quality 1. -/
def spawnFourteen : SpawnState :=
  { pool :=
      { idle := []
        active := [0, 1, 2, 3, 4, 5, 6, 7, 8, 9, 10, 11, 12, 13]
        totalCreated := 14
        maxCapacity := 60
        lastWarningTime := 0
        warningInterval := 2000 }
    placed := []
    isChaosMode := true
    qualityLevel := 1
    itemSpeed := 200 }

/-- A spawn state already at the 15-item cap at quality 1. -/
def spawnAtCap : SpawnState :=
  { pool :=
      { idle := []
        active := [0, 1, 2, 3, 4, 5, 6, 7, 8, 9, 10, 11, 12, 13, 14]
        totalCreated := 15
        maxCapacity := 60
        lastWarningTime := 0
        warningInterval := 2000 }
    placed := []
    isChaosMode := false
    qualityLevel := 1
    itemSpeed := 200 }

end GameScene

namespace ObjectPool

theorem poolInv_init (initialSize : Nat) (maxCapacity? : Option Nat) :
    PoolInv (init initialSize maxCapacity?) := by
  simp [PoolInv, init, entities]

theorem poolInv_get (s : PoolState) (now : Int) (h : PoolInv s) :
    PoolInv (get s now).2.1 := by
  unfold PoolInv entities at *
  cases hi : s.idle with
  | cons o rest =>
    rw [hi] at h
    simpa [get, hi] using h
  | nil =>
    rw [hi] at h
    simp only [List.append_nil] at h
    by_cases hc : hasCapacityAvailable s
    · have h6 : List.Perm (s.active ++ [s.totalCreated])
          (List.range (s.totalCreated + 1)) := by
        rw [List.range_succ]
        exact h.append_right _
      simpa [get, hi, hc, createManagedObject] using h6
    · cases ha : s.active with
      | cons o rest =>
        rw [ha] at h
        have h1 : List.Perm (rest ++ [o]) (o :: rest) :=
          List.perm_append_singleton o rest
        have h2 : List.Perm (rest ++ [o]) (List.range s.totalCreated) :=
          h1.trans h
        by_cases ht : now - s.lastWarningTime < s.warningInterval
        · simpa [get, hi, hc, recycleOldest, ha, reportCapacityWarning, ht]
            using h2
        · simpa [get, hi, hc, recycleOldest, ha, reportCapacityWarning, ht]
            using h2
      | nil =>
        rw [ha] at h
        have h0 : s.totalCreated = 0 := by
          have h3 : List.range s.totalCreated = [] := h.symm.eq_nil
          simpa [List.range_eq_nil] using h3
        by_cases ht : now - s.lastWarningTime < s.warningInterval
        · simp [get, hi, hc, recycleOldest, ha, reportCapacityWarning, ht,
            createManagedObject, h0, List.range_succ]
        · by_cases ht2 : (0 : Int) < s.warningInterval
          · simp [get, hi, hc, recycleOldest, ha, reportCapacityWarning, ht,
              ht2, createManagedObject, h0, List.range_succ]
          · simp [get, hi, hc, recycleOldest, ha, reportCapacityWarning, ht,
              ht2, createManagedObject, h0, List.range_succ]

theorem poolInv_release (s : PoolState) (o : Nat) (h : PoolInv s) :
    PoolInv (release s o) := by
  unfold PoolInv entities at *
  by_cases hm : o ∈ s.active
  · have h1 : List.Perm s.active (o :: s.active.erase o) :=
      List.perm_cons_erase hm
    have h2 : List.Perm (s.active.erase o ++ o :: s.idle)
        (o :: (s.active.erase o ++ s.idle)) := List.perm_middle
    have h3 : List.Perm (o :: (s.active.erase o ++ s.idle))
        (s.active ++ s.idle) := by
      have h4 : List.Perm ((o :: s.active.erase o) ++ s.idle)
          (s.active ++ s.idle) := (h1.symm).append_right _
      exact h4
    have h5 := (h2.trans h3).trans h
    simpa [release, hm] using h5
  · simpa [release, hm] using h

theorem poolInv_runOps (s : PoolState) (ops : List PoolOp) (h : PoolInv s) :
    PoolInv (runOps s ops) := by
  induction ops generalizing s with
  | nil => simpa [runOps] using h
  | cons op rest ih =>
    have h1 : PoolInv (applyOp s op) := by
      cases op with
      | get now => exact poolInv_get s now h
      | release o => exact poolInv_release s o h
    simpa [runOps] using ih (applyOp s op) h1

theorem poolInv_nodup (s : PoolState) (h : PoolInv s) : (entities s).Nodup :=
  (h.nodup_iff).2 (List.nodup_range _)

theorem poolInv_mem (s : PoolState) (h : PoolInv s) (o : Nat) :
    o ∈ entities s ↔ o < s.totalCreated := by
  rw [h.mem_iff, List.mem_range]

theorem poolInv_length (s : PoolState) (h : PoolInv s) :
    s.active.length + s.idle.length = s.totalCreated := by
  have := h.length_eq
  simpa [entities] using this

end ObjectPool

/-- C1: For every sequence of get (acquire) and release calls on an
ObjectPool, the sum of the active list length and the idle pool list length
is at most max(maxCapacity, totalCreated), and every entity created by the
pool belongs to exactly one of the two lists (never both, never neither) at
all times. -/
theorem c1_pool_two_list_invariant (initialSize : Nat)
    (maxCapacity? : Option Nat) (ops : List ObjectPool.PoolOp) :
    let s := ObjectPool.runOps (ObjectPool.init initialSize maxCapacity?) ops
    s.active.length + s.idle.length ≤ max s.maxCapacity s.totalCreated ∧
    (∀ o, o < s.totalCreated →
      (o ∈ s.active ∧ o ∉ s.idle) ∨ (o ∈ s.idle ∧ o ∉ s.active)) ∧
    (∀ o, o ∈ s.active ∨ o ∈ s.idle → o < s.totalCreated) := by
  intro s
  have hinv : ObjectPool.PoolInv s :=
    ObjectPool.poolInv_runOps _ ops
      (ObjectPool.poolInv_init initialSize maxCapacity?)
  have hlen := ObjectPool.poolInv_length s hinv
  have hnodup := ObjectPool.poolInv_nodup s hinv
  have hmem := ObjectPool.poolInv_mem s hinv
  rw [ObjectPool.entities, List.nodup_append] at hnodup
  refine ⟨?_, ?_, ?_⟩
  · rw [hlen]
    exact le_max_right _ _
  · intro o ho
    have h1 : o ∈ ObjectPool.entities s := (hmem o).2 ho
    rw [ObjectPool.entities, List.mem_append] at h1
    rcases h1 with h1 | h1
    · exact Or.inl ⟨h1, fun h2 => hnodup.2.2 h1 h2⟩
    · exact Or.inr ⟨h1, fun h2 => hnodup.2.2 h2 h1⟩
  · intro o ho
    have h1 : o ∈ ObjectPool.entities s := by
      rw [ObjectPool.entities, List.mem_append]
      exact ho
    exact (hmem o).1 h1

/-- Witness for C1 at a concrete pool and operation sequence. -/
theorem c1_pool_two_list_invariant_witness :
    let s := ObjectPool.runOps (ObjectPool.init 2 none)
      [ObjectPool.PoolOp.get 0, ObjectPool.PoolOp.release 1,
        ObjectPool.PoolOp.get 5, ObjectPool.PoolOp.get 6,
        ObjectPool.PoolOp.get 7]
    s.active.length + s.idle.length ≤ max s.maxCapacity s.totalCreated ∧
    (∀ o, o < s.totalCreated →
      (o ∈ s.active ∧ o ∉ s.idle) ∨ (o ∈ s.idle ∧ o ∉ s.active)) ∧
    (∀ o, o ∈ s.active ∨ o ∈ s.idle → o < s.totalCreated) :=
  c1_pool_two_list_invariant 2 none
    [ObjectPool.PoolOp.get 0, ObjectPool.PoolOp.release 1,
      ObjectPool.PoolOp.get 5, ObjectPool.PoolOp.get 6,
      ObjectPool.PoolOp.get 7]

namespace ObjectPool

theorem get_mem_active (s : PoolState) (now : Int) :
    (get s now).1 ∈ (get s now).2.1.active := by
  cases hi : s.idle with
  | cons o rest => simp [get, hi]
  | nil =>
    by_cases hc : hasCapacityAvailable s
    · simp [get, hi, hc, createManagedObject]
    · cases ha : s.active with
      | cons o rest =>
        by_cases ht : now - s.lastWarningTime < s.warningInterval
        · simp [get, hi, hc, recycleOldest, ha, reportCapacityWarning, ht]
        · simp [get, hi, hc, recycleOldest, ha, reportCapacityWarning, ht]
      | nil =>
        by_cases ht : now - s.lastWarningTime < s.warningInterval
        · simp [get, hi, hc, recycleOldest, ha, reportCapacityWarning, ht,
            createManagedObject]
        · by_cases ht2 : now - now < s.warningInterval
          · simp [get, hi, hc, recycleOldest, ha, reportCapacityWarning, ht,
              ht2, createManagedObject]
          · simp [get, hi, hc, recycleOldest, ha, reportCapacityWarning, ht,
              ht2, createManagedObject]

theorem get_warning_effect (s : PoolState) (now : Int)
    (hW : s.warningInterval = 2000) :
    ((get s now).2.2 = true → s.lastWarningTime + 2000 ≤ now ∧
      (get s now).2.1.lastWarningTime = now) ∧
    ((get s now).2.2 = false →
      (get s now).2.1.lastWarningTime = s.lastWarningTime) ∧
    (get s now).2.1.warningInterval = 2000 := by
  cases hi : s.idle with
  | cons o rest => simp [get, hi, hW]
  | nil =>
    by_cases hc : hasCapacityAvailable s
    · simp [get, hi, hc, createManagedObject, hW]
    · cases ha : s.active with
      | cons o rest =>
        by_cases ht : now - s.lastWarningTime < s.warningInterval
        · rw [hW] at ht
          simp [get, hi, hc, recycleOldest, ha, reportCapacityWarning, ht, hW]
        · rw [hW] at ht
          simp [get, hi, hc, recycleOldest, ha, reportCapacityWarning, ht, hW]
          omega
      | nil =>
        by_cases ht : now - s.lastWarningTime < s.warningInterval
        · rw [hW] at ht
          simp [get, hi, hc, recycleOldest, ha, reportCapacityWarning, ht,
            createManagedObject, hW]
        · rw [hW] at ht
          have hd : now - now < (2000 : Int) := by omega
          simp [get, hi, hc, recycleOldest, ha, reportCapacityWarning, ht,
            hd, createManagedObject, hW]
          omega

theorem release_warning_fields (s : PoolState) (o : Nat) :
    (release s o).lastWarningTime = s.lastWarningTime ∧
    (release s o).warningInterval = s.warningInterval := by
  by_cases hm : o ∈ s.active
  · simp [release, hm]
  · simp [release, hm]

theorem warnSep_foldl (ops : List PoolOp) (acc : PoolState × List Int)
    (h1 : acc.1.warningInterval = 2000)
    (h2 : WarnSep acc.2)
    (h3 : ∀ t, acc.2.getLast? = some t → t ≤ acc.1.lastWarningTime) :
    WarnSep (ops.foldl applyOpW acc).2 := by
  induction ops generalizing acc with
  | nil => exact h2
  | cons op rest ih =>
    rw [List.foldl_cons]
    cases op with
    | release o =>
      apply ih (applyOpW acc (PoolOp.release o))
      · have := release_warning_fields acc.1 o
        simpa [applyOpW, this.2] using h1
      · simpa [applyOpW] using h2
      · intro t htl
        have := release_warning_fields acc.1 o
        simp only [applyOpW, this.1]
        exact h3 t (by simpa [applyOpW] using htl)
    | get now =>
      have heff := get_warning_effect acc.1 now h1
      cases hw : (get acc.1 now).2.2 with
      | false =>
        have hacc : applyOpW acc (PoolOp.get now) =
            ((get acc.1 now).2.1, acc.2) := by
          simp [applyOpW, hw]
        rw [hacc]
        apply ih
        · exact heff.2.2
        · exact h2
        · intro t htl
          rw [heff.2.1 hw]
          exact h3 t htl
      | true =>
        have hacc : applyOpW acc (PoolOp.get now) =
            ((get acc.1 now).2.1, acc.2 ++ [now]) := by
          simp [applyOpW, hw]
        rw [hacc]
        have hlate := heff.1 hw
        apply ih
        · exact heff.2.2
        · rw [WarnSep, List.chain'_append]
          refine ⟨h2, List.chain'_singleton _, ?_⟩
          intro x hx y hy
          have hy2 : y = now := by
            simp only [List.head?_cons, Option.mem_def, Option.some.injEq]
              at hy
            omega
          have hxle := h3 x hx
          omega
        · intro t htl
          have htl2 : (acc.2 ++ [now]).getLast? = some t := htl
          rw [List.getLast?_concat] at htl2
          have ht2 : t = now := by
            have := htl2
            simp only [Option.some.injEq] at this
            omega
          show t ≤ (get acc.1 now).2.1.lastWarningTime
          rw [hlate.2, ht2]

end ObjectPool

/-- C3: get() returns the most recently released idle entity when the idle
list is non-empty (LIFO reuse); when the idle list is empty and
active+idle < maxCapacity it constructs a fresh entity via the factory;
when at capacity it force-resets and reuses the oldest active entity (head
of the active queue, FIFO) so the active count does not grow past capacity;
if even that yields no entity it constructs one anyway, so get() never
fails to return an entity; every recycle-under-pressure or over-capacity
construction emits a diagnostic warning at most once per 2000 ms regardless
of call frequency. -/
theorem c3_get_policy :
    (∀ s : PoolState, ∀ o : Nat, ∀ now : Int, o ∈ s.active →
      (ObjectPool.release s o).idle = o :: s.idle ∧
      (ObjectPool.get (ObjectPool.release s o) now).1 = o) ∧
    (∀ s : PoolState, ∀ o : Nat, ∀ rest : List Nat, ∀ now : Int,
      s.idle = o :: rest →
      (ObjectPool.get s now).1 = o ∧ (ObjectPool.get s now).2.1.idle = rest) ∧
    (∀ s : PoolState, ∀ now : Int, s.idle = [] →
      s.active.length < s.maxCapacity →
      (ObjectPool.get s now).1 = s.totalCreated ∧
      (ObjectPool.get s now).2.1.totalCreated = s.totalCreated + 1) ∧
    (∀ s : PoolState, ∀ o : Nat, ∀ rest : List Nat, ∀ now : Int,
      s.idle = [] → ¬ s.active.length < s.maxCapacity →
      s.active = o :: rest →
      (ObjectPool.get s now).1 = o ∧
      (ObjectPool.get s now).2.1.active.length = s.active.length) ∧
    (∀ s : PoolState, ∀ now : Int,
      (ObjectPool.get s now).1 ∈ (ObjectPool.get s now).2.1.active) ∧
    (∀ initialSize : Nat, ∀ maxCapacity? : Option Nat,
      ∀ ops : List ObjectPool.PoolOp,
      ObjectPool.WarnSep
        (ObjectPool.runOpsW (ObjectPool.init initialSize maxCapacity?) ops).2) := by
  refine ⟨?_, ?_, ?_, ?_, ?_, ?_⟩
  · intro s o now hm
    constructor
    · simp [ObjectPool.release, hm]
    · simp [ObjectPool.get, ObjectPool.release, hm]
  · intro s o rest now hi
    constructor
    · simp [ObjectPool.get, hi]
    · simp [ObjectPool.get, hi]
  · intro s now hi hcap
    have hc : ObjectPool.hasCapacityAvailable s = true := by
      simp [ObjectPool.hasCapacityAvailable, hi]
      omega
    constructor
    · simp [ObjectPool.get, hi, hc, ObjectPool.createManagedObject]
    · simp [ObjectPool.get, hi, hc, ObjectPool.createManagedObject]
  · intro s o rest now hi hcap ha
    have hc : ¬ ObjectPool.hasCapacityAvailable s = true := by
      simp [ObjectPool.hasCapacityAvailable, hi]
      omega
    by_cases ht : now - s.lastWarningTime < s.warningInterval
    · constructor
      · simp [ObjectPool.get, hi, hc, ObjectPool.recycleOldest, ha,
          ObjectPool.reportCapacityWarning, ht]
      · simp [ObjectPool.get, hi, hc, ObjectPool.recycleOldest, ha,
          ObjectPool.reportCapacityWarning, ht]
    · constructor
      · simp [ObjectPool.get, hi, hc, ObjectPool.recycleOldest, ha,
          ObjectPool.reportCapacityWarning, ht]
      · simp [ObjectPool.get, hi, hc, ObjectPool.recycleOldest, ha,
          ObjectPool.reportCapacityWarning, ht]
  · exact ObjectPool.get_mem_active
  · intro initialSize maxCapacity? ops
    exact ObjectPool.warnSep_foldl ops _ rfl (List.chain'_nil) (by simp)

/-- Witness for C3: acquiring from the concrete capacity-10 pool with 10
active entities and an empty idle stack returns the oldest active entity
(entity 0) and leaves the active count at 10. -/
theorem c3_get_policy_witness :
    (ObjectPool.get ObjectPool.poolAtCap 2500).1 = 0 ∧
    (ObjectPool.get ObjectPool.poolAtCap 2500).2.1.active.length =
      ObjectPool.poolAtCap.active.length :=
  c3_get_policy.2.2.2.1 ObjectPool.poolAtCap 0 [1, 2, 3, 4, 5, 6, 7, 8, 9]
    2500 rfl (by decide) rfl

namespace PerformanceManager

theorem adjustQuality_fpsHistory (s : PerfState) :
    (adjustQuality s).fpsHistory = s.fpsHistory := by
  unfold adjustQuality
  split
  · rfl
  · split
    · rfl
    · rfl

theorem adjustQuality_le_two (s : PerfState) (h : s.qualityLevel ≤ 2) :
    (adjustQuality s).qualityLevel ≤ 2 := by
  unfold adjustQuality
  split
  · show s.qualityLevel - 1 ≤ 2
    omega
  · split
    · next h2 =>
      show s.qualityLevel + 1 ≤ 2
      omega
    · exact h

theorem adjustQuality_char (s : PerfState) :
    (adjustQuality s).qualityLevel =
      (if avgFPS s.fpsHistory < 40 ∧ 0 < s.qualityLevel then
        s.qualityLevel - 1
      else if 58 < avgFPS s.fpsHistory ∧ s.qualityLevel < 2 then
        s.qualityLevel + 1
      else s.qualityLevel) := by
  unfold adjustQuality
  split
  · rfl
  · split
    · rfl
    · rfl

theorem update_of_gate (s : PerfState) (time : Int)
    (hg : 1000 ≤ time - s.lastTime) :
    update s time =
      (if (pushSample s time).autoOptimize ∧
          10 ≤ (pushSample s time).fpsHistory.length then
        adjustQuality (pushSample s time)
      else pushSample s time) := by
  simp [update, pushSample, hg]

theorem update_of_no_gate (s : PerfState) (time : Int)
    (hg : time - s.lastTime < 1000) :
    update s time = { s with frameCount := s.frameCount + 1 } := by
  have hg2 : ¬ (1000 : Int) ≤ time - s.lastTime := by omega
  simp [update, hg2]

theorem pushSample_qualityLevel (s : PerfState) (time : Int) :
    (pushSample s time).qualityLevel = s.qualityLevel := rfl

theorem pushSample_autoOptimize (s : PerfState) (time : Int) :
    (pushSample s time).autoOptimize = s.autoOptimize := rfl

theorem update_quality_le_two (s : PerfState) (time : Int)
    (h : s.qualityLevel ≤ 2) :
    (update s time).qualityLevel ≤ 2 := by
  by_cases hg : (1000 : Int) ≤ time - s.lastTime
  · rw [update_of_gate s time hg]
    split
    · exact adjustQuality_le_two _
        (by rw [pushSample_qualityLevel]; exact h)
    · rw [pushSample_qualityLevel]
      exact h
  · rw [update_of_no_gate s time (by omega)]
    exact h

theorem runUpdates_quality_le_two (s : PerfState) (times : List Int)
    (h : s.qualityLevel ≤ 2) :
    (runUpdates s times).qualityLevel ≤ 2 := by
  induction times generalizing s with
  | nil => exact h
  | cons t rest ih =>
    rw [runUpdates, List.foldl_cons]
    exact ih (update s t) (update_quality_le_two s t h)

end PerformanceManager

/-- C4: The quality level is always one of 0, 1, 2, and a transition
happens only when the FPS history holds at least 10 samples: if the
window's arithmetic mean is below 40 and the level is above 0 the level
decrements by exactly one; else if the mean is above 58 and the level is
below 2 it increments by exactly one; otherwise the level is unchanged. -/
theorem c4_quality_transitions :
    (∀ times : List Int,
      (PerformanceManager.runUpdates PerformanceManager.init
        times).qualityLevel = 0 ∨
      (PerformanceManager.runUpdates PerformanceManager.init
        times).qualityLevel = 1 ∨
      (PerformanceManager.runUpdates PerformanceManager.init
        times).qualityLevel = 2) ∧
    (∀ s : PerfState, ∀ time : Int, time - s.lastTime < 1000 →
      (PerformanceManager.update s time).qualityLevel = s.qualityLevel ∧
      (PerformanceManager.update s time).fpsHistory = s.fpsHistory) ∧
    (∀ s : PerfState, ∀ time : Int,
      (PerformanceManager.update s time).fpsHistory.length < 10 →
      (PerformanceManager.update s time).qualityLevel = s.qualityLevel) ∧
    (∀ s : PerfState, ∀ time : Int, 1000 ≤ time - s.lastTime →
      s.autoOptimize = true →
      10 ≤ (PerformanceManager.update s time).fpsHistory.length →
      (PerformanceManager.update s time).qualityLevel =
        (if PerformanceManager.avgFPS
            (PerformanceManager.update s time).fpsHistory < 40 ∧
            0 < s.qualityLevel then s.qualityLevel - 1
         else if 58 < PerformanceManager.avgFPS
            (PerformanceManager.update s time).fpsHistory ∧
            s.qualityLevel < 2 then s.qualityLevel + 1
         else s.qualityLevel)) := by
  refine ⟨?_, ?_, ?_, ?_⟩
  · intro times
    have h := PerformanceManager.runUpdates_quality_le_two
      PerformanceManager.init times (by decide)
    omega
  · intro s time hg
    rw [PerformanceManager.update_of_no_gate s time hg]
    exact ⟨rfl, rfl⟩
  · intro s time hlen
    by_cases hg : (1000 : Int) ≤ time - s.lastTime
    · rw [PerformanceManager.update_of_gate s time hg] at hlen ⊢
      have hlen2 : (PerformanceManager.pushSample s time).fpsHistory.length
          < 10 := by
        split at hlen
        · rwa [PerformanceManager.adjustQuality_fpsHistory] at hlen
        · exact hlen
      rw [if_neg (fun hcond => absurd hcond.2 (by omega))]
      exact PerformanceManager.pushSample_qualityLevel s time
    · rw [PerformanceManager.update_of_no_gate s time (by omega)]
  · intro s time hg hauto hlen
    rw [PerformanceManager.update_of_gate s time hg] at hlen ⊢
    have hauto2 : (PerformanceManager.pushSample s time).autoOptimize
        = true := by
      rw [PerformanceManager.pushSample_autoOptimize]
      exact hauto
    have hlen2 : 10 ≤
        (PerformanceManager.pushSample s time).fpsHistory.length := by
      split at hlen
      · rwa [PerformanceManager.adjustQuality_fpsHistory] at hlen
      · exact hlen
    rw [if_pos ⟨by rw [hauto2], hlen2⟩]
    rw [PerformanceManager.adjustQuality_fpsHistory,
      PerformanceManager.adjustQuality_char,
      PerformanceManager.pushSample_qualityLevel]

theorem pushSample_history_ten :
    10 ≤ (PerformanceManager.pushSample PerformanceManager.perfNineSamples
      1000).fpsHistory.length := by
  decide

/-- Witness for C4: the tenth sample (mean 30.1 < 40 at level 1) follows
the stated transition rule. -/
theorem c4_quality_transitions_witness :
    (PerformanceManager.update PerformanceManager.perfNineSamples
      1000).qualityLevel =
      (if PerformanceManager.avgFPS
          (PerformanceManager.update PerformanceManager.perfNineSamples
            1000).fpsHistory < 40 ∧
          0 < PerformanceManager.perfNineSamples.qualityLevel then
        PerformanceManager.perfNineSamples.qualityLevel - 1
      else if 58 < PerformanceManager.avgFPS
          (PerformanceManager.update PerformanceManager.perfNineSamples
            1000).fpsHistory ∧
          PerformanceManager.perfNineSamples.qualityLevel < 2 then
        PerformanceManager.perfNineSamples.qualityLevel + 1
      else PerformanceManager.perfNineSamples.qualityLevel) := by
  have hlen : 10 ≤ (PerformanceManager.update
      PerformanceManager.perfNineSamples 1000).fpsHistory.length := by
    rw [PerformanceManager.update_of_gate _ _ (by decide)]
    split
    · rw [PerformanceManager.adjustQuality_fpsHistory]
      exact pushSample_history_ten
    · exact pushSample_history_ten
  exact c4_quality_transitions.2.2.2 PerformanceManager.perfNineSamples 1000
    (by decide) rfl hlen

theorem catchScoringStep_eq (s : GameScene.ScoreState) (ty : ItemType)
    (v : ℚ) :
    (GameScene.catchScoringStep s ty v).combo = s.combo + 1 ∧
    (GameScene.catchScoringStep s ty v).score = s.score +
      ⌊v * (s.level : ℚ) * (GameScene.comboMultiplier (s.combo + 1) : ℚ) *
        s.scoreMultiplier * (if s.overchargeActive then 2 else 1) *
        (if s.fortuneAura then 3 / 2 else 1) * s.comboLevelBonus⌋ := by
  by_cases hty : ty = ItemType.gold
  · constructor
    · simp [GameScene.catchScoringStep, hty]
    · simp [GameScene.catchScoringStep, hty]
  · constructor
    · simp [GameScene.catchScoringStep, hty]
    · simp [GameScene.catchScoringStep, hty]

/-- C2: On catching a non-bomb item that reaches the scoring path, the
points added to the score equal floor(itemValue × currentLevel ×
comboMultiplier × scoreMultiplier × overchargeBonus × equipmentBonus ×
comboLevelBonus), where comboMultiplier = min(floor(combo/5)+1, 5)
evaluated on the combo counter after it is incremented by the catch, and
overchargeBonus is 2 while the overcharge window is active and 1
otherwise; in particular, the 5th consecutive catch of a regular item
(value 10) at level 1 with all external bonuses equal to 1 scores exactly
20 points. -/
theorem c2_scoring_formula :
    (∀ s : GameScene.ScoreState, ∀ ty : ItemType, ∀ v : ℚ,
      (GameScene.catchScoringStep s ty v).combo = s.combo + 1 ∧
      (GameScene.catchScoringStep s ty v).score = s.score +
        ⌊v * (s.level : ℚ) *
          (GameScene.comboMultiplier (s.combo + 1) : ℚ) *
          s.scoreMultiplier * (if s.overchargeActive then 2 else 1) *
          (if s.fortuneAura then 3 / 2 else 1) * s.comboLevelBonus⌋) ∧
    (GameScene.fourRegularCatches.combo = 4 ∧
      (GameScene.catchScoringStep GameScene.fourRegularCatches
        ItemType.regular 10).combo = 5 ∧
      (GameScene.catchScoringStep GameScene.fourRegularCatches
        ItemType.regular 10).score -
        GameScene.fourRegularCatches.score = 20) := by
  have h4c : GameScene.fourRegularCatches.combo = 4 := by decide
  have h4lvl : GameScene.fourRegularCatches.level = 1 := by decide
  have h4sm : GameScene.fourRegularCatches.scoreMultiplier = 1 := by decide
  have h4oc : GameScene.fourRegularCatches.overchargeActive = false := by
    decide
  have h4fa : GameScene.fourRegularCatches.fortuneAura = false := by decide
  have h4cb : GameScene.fourRegularCatches.comboLevelBonus = 1 := by decide
  refine ⟨catchScoringStep_eq, h4c, ?_, ?_⟩
  · rw [(catchScoringStep_eq GameScene.fourRegularCatches
      ItemType.regular 10).1, h4c]
  · rw [(catchScoringStep_eq GameScene.fourRegularCatches
      ItemType.regular 10).2, h4c, h4lvl, h4sm, h4oc, h4fa, h4cb]
    norm_num [GameScene.comboMultiplier]

/-- C5 counterexample: a bomb that passes below the playfield bottom with
no shield active leaves lives, combo and shield charges unchanged
(`missItem` releases bombs early, line 6967), contradicting the claim that
every uncaught unshielded item breaks the combo and costs one life. -/
theorem c5_counterexample :
    GameScene.missBase.shieldActive = false ∧
    GameScene.missBase.lives = 3 ∧
    GameScene.missBase.combo = 7 ∧
    (GameScene.missItem GameScene.missBase ItemType.bomb).lives = 3 ∧
    (GameScene.missItem GameScene.missBase ItemType.bomb).combo = 7 ∧
    ¬ (GameScene.missItem GameScene.missBase ItemType.bomb).lives =
      GameScene.missBase.lives - 1 := by
  decide

/-- C5 (amended): For every non-bomb item that passes below the playfield
bottom without being caught: if a shield is active, exactly one shield
charge is consumed and combo and lives are unchanged; otherwise the combo
resets to 0 and lives decrease by exactly one, and when lives reach 0 the
run transitions to the terminal game-over state (so 3 unshielded misses
from 3 starting lives end the run).  Bombs that fall off-screen are simply
discarded. -/
theorem c5_miss_semantics :
    (∀ s : GameScene.MissState, ∀ ty : ItemType, ty ≠ ItemType.bomb →
      (s.shieldActive = true →
        (GameScene.missItem s ty).shieldUses = s.shieldUses - 1 ∧
        (GameScene.missItem s ty).combo = s.combo ∧
        (GameScene.missItem s ty).lives = s.lives ∧
        (GameScene.missItem s ty).isGameOver = s.isGameOver) ∧
      (s.shieldActive = false →
        (GameScene.missItem s ty).combo = 0 ∧
        (GameScene.missItem s ty).lives = s.lives - 1 ∧
        ((GameScene.missItem s ty).lives ≤ 0 →
          (GameScene.missItem s ty).isGameOver = true) ∧
        (1 ≤ (GameScene.missItem s ty).lives →
          (GameScene.missItem s ty).isGameOver = s.isGameOver))) ∧
    ((GameScene.missItem (GameScene.missItem (GameScene.missItem
        GameScene.missStart ItemType.regular) ItemType.silver)
        ItemType.regular).lives = 0 ∧
      (GameScene.missItem (GameScene.missItem (GameScene.missItem
        GameScene.missStart ItemType.regular) ItemType.silver)
        ItemType.regular).isGameOver = true) := by
  constructor
  · intro s ty hty
    constructor
    · intro hsh
      simp [GameScene.missItem, hty, hsh]
    · intro hsh
      by_cases hlv : s.lives - 1 ≤ 0
      · simp [GameScene.missItem, hty, hsh, hlv]
        omega
      · simp [GameScene.missItem, hty, hsh, hlv]
  · constructor
    · decide
    · decide

/-- Witness for C5 at a concrete mid-run state and item type. -/
theorem c5_miss_semantics_witness :
    (GameScene.missItem GameScene.missBase ItemType.regular).combo = 0 ∧
    (GameScene.missItem GameScene.missBase ItemType.regular).lives =
      GameScene.missBase.lives - 1 ∧
    ((GameScene.missItem GameScene.missBase ItemType.regular).lives ≤ 0 →
      (GameScene.missItem GameScene.missBase ItemType.regular).isGameOver =
        true) ∧
    (1 ≤ (GameScene.missItem GameScene.missBase ItemType.regular).lives →
      (GameScene.missItem GameScene.missBase ItemType.regular).isGameOver =
        GameScene.missBase.isGameOver) :=
  (c5_miss_semantics.1 GameScene.missBase ItemType.regular (by decide)).2
    rfl

/-- C6 counterexample: a catch taking the score from 95 to 105 crosses the
level-up increment 100 (95 < 100 ≤ 105), yet the level does not change,
because the trigger (line 6932) is an exact-multiple test
(`score % 100 === 0`), not a crossing test. -/
theorem c6_counterexample :
    GameScene.levelNear.score = 95 ∧
    GameScene.levelNear.level = 1 ∧
    (GameScene.applyCatchPoints GameScene.levelNear 10).score = 105 ∧
    GameScene.levelNear.score < 100 ∧ (100 : Int) ≤ 105 ∧
    (GameScene.applyCatchPoints GameScene.levelNear 10).level = 1 := by
  decide

/-- C6 (amended): Whenever a scoring catch brings the score to an exact
positive multiple of the level-up increment (100 points), the level
increases by one, the base item speed increases by 20, the spawn interval
decreases by 100 ms clamped to a floor of 500 ms and is applied to the
live spawn timer, and chaos mode activates on every 5th level; a catch
whose resulting score is not an exact positive multiple of 100 only adds
the points. -/
theorem c6_levelup_semantics :
    (∀ s : GameScene.LevelUpState, ∀ p : Int,
      ((s.score + p) % 100 = 0 ∧ 0 < s.score + p →
        GameScene.applyCatchPoints s p =
          GameScene.levelUp { s with score := s.score + p }) ∧
      (¬ ((s.score + p) % 100 = 0 ∧ 0 < s.score + p) →
        GameScene.applyCatchPoints s p = { s with score := s.score + p })) ∧
    (∀ s : GameScene.LevelUpState,
      (GameScene.levelUp s).level = s.level + 1 ∧
      (GameScene.levelUp s).itemSpeed = s.itemSpeed + 20 ∧
      (GameScene.levelUp s).spawnRate = max 500 (s.spawnRate - 100) ∧
      (GameScene.levelUp s).spawnTimerDelay = max 500 (s.spawnRate - 100) ∧
      ((GameScene.levelUp s).isChaosMode = true ↔
        (s.level + 1) % 5 = 0 ∨ s.isChaosMode = true)) := by
  constructor
  · intro s p
    have happ : GameScene.applyCatchPoints s p =
        (if (s.score + p) % 100 = 0 ∧ 0 < s.score + p then
          GameScene.levelUp { s with score := s.score + p }
        else { s with score := s.score + p }) := rfl
    constructor
    · intro hmul
      rw [happ, if_pos hmul]
    · intro hmul
      rw [happ, if_neg hmul]
  · intro s
    by_cases hch : (s.level + 1) % 5 = 0
    · simp [GameScene.levelUp, hch]
    · simp [GameScene.levelUp, hch]

/-- Witness for C6: a catch taking the score from 90 to exactly 100
triggers the level-up. -/
theorem c6_levelup_semantics_witness :
    GameScene.applyCatchPoints GameScene.levelTen 10 =
      GameScene.levelUp
        { GameScene.levelTen with
          score := GameScene.levelTen.score + 10 } :=
  (c6_levelup_semantics.1 GameScene.levelTen 10).1 (by decide)

/-- C7: After every catch and every miss, performanceScore equals
clamp(0, 10, (recentCatchRate + combo×0.1 + recentValueSum×0.01)/3)
computed over the 10-second sliding window of catch events
(recentCatchRate being the window length divided by 10), so
performanceScore always lies in [0, 10]; item fall speed is then set to
the difficulty base speed times (1 + performanceScore×0.05) and the live
spawn timer delay to the difficulty base interval times
max(0.7, 1 − performanceScore×0.03).  The window only ever holds
non-negative catch values (the scoring path is reached by no item of
negative value), which the hypothesis records. -/
theorem c7_performance_score (s : GameScene.PerfScoreState)
    (h : ∀ v ∈ s.recentCatchValues, 0 ≤ v) :
    (GameScene.updatePerformanceScore s).performanceScore =
      max 0 (min 10 (((s.recentCatchValues.length : ℚ) / 10 +
        (s.combo : ℚ) * 0.1 + s.recentCatchValues.sum * 0.01) / 3)) ∧
    0 ≤ (GameScene.updatePerformanceScore s).performanceScore ∧
    (GameScene.updatePerformanceScore s).performanceScore ≤ 10 ∧
    (GameScene.updatePerformanceScore s).itemSpeed =
      GameScene.difficultyBaseSpeed s.difficulty *
        (1 + (GameScene.updatePerformanceScore s).performanceScore *
          0.05) ∧
    (GameScene.updatePerformanceScore s).spawnTimerDelay =
      GameScene.difficultyBaseSpawn s.difficulty *
        max 0.7 (1 - (GameScene.updatePerformanceScore s).performanceScore *
          0.03) := by
  have hsum : 0 ≤ s.recentCatchValues.sum := List.sum_nonneg h
  have hx0 : 0 ≤ ((s.recentCatchValues.length : ℚ) / 10 +
      (s.combo : ℚ) * 0.1 + s.recentCatchValues.sum * 0.01) / 3 := by
    have h1 : (0 : ℚ) ≤ (s.recentCatchValues.length : ℚ) / 10 := by
      positivity
    have h2 : (0 : ℚ) ≤ (s.combo : ℚ) * 0.1 := by positivity
    have h3 : (0 : ℚ) ≤ s.recentCatchValues.sum * 0.01 :=
      mul_nonneg hsum (by norm_num)
    linarith
  have hmin0 : (0 : ℚ) ≤ min 10 (((s.recentCatchValues.length : ℚ) / 10 +
      (s.combo : ℚ) * 0.1 + s.recentCatchValues.sum * 0.01) / 3) :=
    le_min (by norm_num) hx0
  refine ⟨?_, ?_, ?_, rfl, ?_⟩
  · exact (max_eq_right hmin0).symm
  · exact hmin0
  · exact min_le_left _ _
  · have hadj : (0.7 : ℚ) ≤
        max 0.7 (1 - (GameScene.updatePerformanceScore s).performanceScore *
          0.03) := le_max_left _ _
    have hbs : (1000 : ℚ) ≤ GameScene.difficultyBaseSpawn s.difficulty := by
      cases s.difficulty
      · norm_num [GameScene.difficultyBaseSpawn]
      · norm_num [GameScene.difficultyBaseSpawn]
      · norm_num [GameScene.difficultyBaseSpawn]
    have hbs0 : (0 : ℚ) ≤ GameScene.difficultyBaseSpawn s.difficulty := by
      linarith
    have hmul : (1000 : ℚ) * 0.7 ≤
        GameScene.difficultyBaseSpawn s.difficulty *
          max 0.7 (1 -
            (GameScene.updatePerformanceScore s).performanceScore * 0.03) :=
      mul_le_mul hbs hadj (by norm_num) hbs0
    have h500 : (500 : ℚ) ≤
        GameScene.difficultyBaseSpawn s.difficulty *
          max 0.7 (1 -
            (GameScene.updatePerformanceScore s).performanceScore * 0.03) := by
      linarith
    exact max_eq_right h500

/-- Witness for C7 at a concrete window of two catches (values 10 and 50)
and a 3-catch combo on normal difficulty. -/
theorem c7_performance_score_witness :
    (GameScene.updatePerformanceScore GameScene.perfScoreSample).performanceScore =
      max 0 (min 10
        (((GameScene.perfScoreSample.recentCatchValues.length : ℚ) / 10 +
          (GameScene.perfScoreSample.combo : ℚ) * 0.1 +
          GameScene.perfScoreSample.recentCatchValues.sum * 0.01) / 3)) ∧
    0 ≤ (GameScene.updatePerformanceScore
      GameScene.perfScoreSample).performanceScore ∧
    (GameScene.updatePerformanceScore
      GameScene.perfScoreSample).performanceScore ≤ 10 ∧
    (GameScene.updatePerformanceScore GameScene.perfScoreSample).itemSpeed =
      GameScene.difficultyBaseSpeed GameScene.perfScoreSample.difficulty *
        (1 + (GameScene.updatePerformanceScore
          GameScene.perfScoreSample).performanceScore * 0.05) ∧
    (GameScene.updatePerformanceScore
      GameScene.perfScoreSample).spawnTimerDelay =
      GameScene.difficultyBaseSpawn GameScene.perfScoreSample.difficulty *
        max 0.7 (1 - (GameScene.updatePerformanceScore
          GameScene.perfScoreSample).performanceScore * 0.03) :=
  c7_performance_score GameScene.perfScoreSample (by decide)

/-- C8 counterexample: two spawn steps from the same run state, with no
difference in delta time or input, produce different run states when the
`Math.random()` draw differs (0.05 rolls a bomb, 0.9 rolls a regular
item), so a tick is not a function of the run state, delta and input
alone. -/
theorem c8_counterexample :
    GameScene.spawnItem GameScene.spawnQuiet
      { count := 1, xs := [100], rands := [1 / 20] } ≠
    GameScene.spawnItem GameScene.spawnQuiet
      { count := 1, xs := [100], rands := [9 / 10] } := by
  intro heq
  have h1 : (GameScene.spawnItem GameScene.spawnQuiet
      { count := 1, xs := [100], rands := [1 / 20] }).placed.map
        (fun pr => pr.2.itemType) = [ItemType.bomb] := by
    norm_num [GameScene.spawnItem, GameScene.spawnLoop, GameScene.itemRoll,
      GameScene.spawnQuiet, GameScene.spawnMaxItems, ObjectPool.get]
  have h2 : (GameScene.spawnItem GameScene.spawnQuiet
      { count := 1, xs := [100], rands := [9 / 10] }).placed.map
        (fun pr => pr.2.itemType) = [ItemType.regular] := by
    norm_num [GameScene.spawnItem, GameScene.spawnLoop, GameScene.itemRoll,
      GameScene.spawnQuiet, GameScene.spawnMaxItems, ObjectPool.get]
  rw [heq] at h1
  rw [h2] at h1
  exact absurd h1 (by decide)

/-- C8 (amended): Two simulation ticks started from equal run states and
given the same elapsed delta time, the same input snapshot, the same
random draws and the same wall-clock readings produce equal resulting run
states; the randomness consumed by spawning (`Math.random()`,
`Phaser.Math.Between`) and the wall clock read by the catch bookkeeping
(`Date.now()`) are additional inputs of a tick, not part of the run
state, the delta or the input snapshot. -/
theorem c8_tick_determinism :
    (∀ s₁ s₂ : GameScene.SpawnState, ∀ d₁ d₂ : GameScene.SpawnDraw,
      s₁ = s₂ → d₁ = d₂ →
      GameScene.spawnItem s₁ d₁ = GameScene.spawnItem s₂ d₂) ∧
    (∀ rc : List (Int × ℚ), ∀ v : ℚ, ∀ n₁ n₂ : Int, n₁ = n₂ →
      GameScene.recentCatchesPush rc v n₁ =
        GameScene.recentCatchesPush rc v n₂) := by
  constructor
  · intro s₁ s₂ d₁ d₂ hs hd
    rw [hs, hd]
  · intro rc v n₁ n₂ hn
    rw [hn]

/-- Witness for C8 at a concrete state, draw and clock reading. -/
theorem c8_tick_determinism_witness :
    GameScene.spawnItem GameScene.spawnQuiet
      { count := 1, xs := [100], rands := [9 / 10] } =
    GameScene.spawnItem GameScene.spawnQuiet
      { count := 1, xs := [100], rands := [9 / 10] } :=
  c8_tick_determinism.1 GameScene.spawnQuiet GameScene.spawnQuiet
    { count := 1, xs := [100], rands := [9 / 10] }
    { count := 1, xs := [100], rands := [9 / 10] } rfl rfl

theorem foldl_lives_le (ops : List GameScene.LifeOp) (l : Int)
    (h : l ≤ 5) : ops.foldl GameScene.applyLifeOp l ≤ 5 := by
  induction ops generalizing l with
  | nil => exact h
  | cons op rest ih =>
    rw [List.foldl_cons]
    apply ih
    cases op with
    | healthCatch => exact min_le_right _ _
    | mysteryExtraLife => exact min_le_right _ _
    | bombCatch => show l - 1 ≤ 5; omega
    | missUnshielded => show l - 1 ≤ 5; omega
    | spikeHazard => show l - 1 ≤ 5; omega

/-- C9: In the main game scene, the lives counter never exceeds 5 in any
reachable state: both life-granting operations (catching a health item and
the mystery-item extra-life outcome) set lives to min(lives + 1, 5), and
no other operation increases lives. -/
theorem c9_lives_never_exceed_five :
    (∀ extraLife : Bool, ∀ ops : List GameScene.LifeOp,
      GameScene.runLives extraLife ops ≤ 5) ∧
    (∀ l : Int,
      GameScene.applyLifeOp l GameScene.LifeOp.healthCatch =
        min (l + 1) 5 ∧
      GameScene.applyLifeOp l GameScene.LifeOp.mysteryExtraLife =
        min (l + 1) 5 ∧
      GameScene.applyLifeOp l GameScene.LifeOp.bombCatch ≤ l ∧
      GameScene.applyLifeOp l GameScene.LifeOp.missUnshielded ≤ l ∧
      GameScene.applyLifeOp l GameScene.LifeOp.spikeHazard ≤ l) := by
  constructor
  · intro extraLife ops
    apply foldl_lives_le
    cases extraLife
    · decide
    · decide
  · intro l
    refine ⟨rfl, rfl, ?_, ?_, ?_⟩
    · show l - 1 ≤ l
      omega
    · show l - 1 ≤ l
      omega
    · show l - 1 ≤ l
      omega

theorem get_active_length (s : PoolState) (now : Int) :
    (ObjectPool.get s now).2.1.active.length ≤ s.active.length + 1 := by
  cases hi : s.idle with
  | cons o rest => simp [ObjectPool.get, hi]
  | nil =>
    by_cases hc : ObjectPool.hasCapacityAvailable s
    · simp [ObjectPool.get, hi, hc, ObjectPool.createManagedObject]
    · cases ha : s.active with
      | cons o rest =>
        by_cases ht : now - s.lastWarningTime < s.warningInterval
        · simp [ObjectPool.get, hi, hc, ObjectPool.recycleOldest, ha,
            ObjectPool.reportCapacityWarning, ht]
        · simp [ObjectPool.get, hi, hc, ObjectPool.recycleOldest, ha,
            ObjectPool.reportCapacityWarning, ht]
      | nil =>
        by_cases ht : now - s.lastWarningTime < s.warningInterval
        · simp [ObjectPool.get, hi, hc, ObjectPool.recycleOldest, ha,
            ObjectPool.reportCapacityWarning, ht,
            ObjectPool.createManagedObject]
        · by_cases ht2 : (0 : Int) < s.warningInterval
          · simp [ObjectPool.get, hi, hc, ObjectPool.recycleOldest, ha,
              ObjectPool.reportCapacityWarning, ht, ht2,
              ObjectPool.createManagedObject]
          · simp [ObjectPool.get, hi, hc, ObjectPool.recycleOldest, ha,
              ObjectPool.reportCapacityWarning, ht, ht2,
              ObjectPool.createManagedObject]

theorem spawnLoop_active_length (n : Nat) (s : GameScene.SpawnState)
    (xs rs : List ℚ) :
    (GameScene.spawnLoop n s xs rs).pool.active.length ≤
      s.pool.active.length + n := by
  induction n generalizing s xs rs with
  | zero => simp [GameScene.spawnLoop]
  | succ n ih =>
    rw [GameScene.spawnLoop]
    have h1 := ih
      { s with
        pool := (ObjectPool.get s.pool 0).2.1
        placed := s.placed ++
          [((ObjectPool.get s.pool 0).1,
            { x := xs.headD 0, y := -30,
              itemType := (GameScene.itemRoll (rs.headD 1) s.itemSpeed).1,
              value := (GameScene.itemRoll (rs.headD 1) s.itemSpeed).2.1,
              speed := (GameScene.itemRoll (rs.headD 1) s.itemSpeed).2.2 })] }
      xs.tail rs.tail
    have h2 := get_active_length s.pool 0
    simp only at h1
    omega

theorem spawnMaxItems_le_fifteen (q : Nat) :
    GameScene.spawnMaxItems q ≤ 15 := by
  unfold GameScene.spawnMaxItems
  split
  · omega
  · omega

/-- C10 counterexample: with 14 active items (one below the cap of 15),
chaos mode active and a spawn-count draw of 2, one spawnItem call brings
the active item count to 16, over the claimed bound of 15. -/
theorem c10_counterexample :
    GameScene.spawnFourteen.pool.active.length = 14 ∧
    GameScene.spawnMaxItems GameScene.spawnFourteen.qualityLevel = 15 ∧
    GameScene.spawnFourteen.isChaosMode = true ∧
    (GameScene.spawnItem GameScene.spawnFourteen
      { count := 2, xs := [100, 200],
        rands := [9 / 10, 9 / 10] }).pool.active.length = 16 := by
  refine ⟨rfl, rfl, rfl, ?_⟩
  decide

/-- C10 (amended): spawnItem is a no-op (no entity is acquired from the
pool and no state changes) whenever the number of active items is at
least the concurrency cap — 15 normally, lowered to 8 when the
performance quality level is 0 — and each call spawns at most 2 items
(2 only on a chaos-mode double spawn), so the item-spawning path alone
never raises the active item count above 16 (one above the cap), not
15. -/
theorem c10_spawn_cap :
    (∀ s : GameScene.SpawnState, ∀ d : GameScene.SpawnDraw,
      GameScene.spawnMaxItems s.qualityLevel ≤ s.pool.active.length →
      GameScene.spawnItem s d = s) ∧
    (∀ s : GameScene.SpawnState, ∀ d : GameScene.SpawnDraw, d.count ≤ 2 →
      (GameScene.spawnItem s d).pool.active.length ≤
        max s.pool.active.length 16) := by
  have hdef : ∀ s : GameScene.SpawnState, ∀ d : GameScene.SpawnDraw,
      GameScene.spawnItem s d =
        (if GameScene.spawnMaxItems s.qualityLevel ≤ s.pool.active.length
         then s
         else GameScene.spawnLoop (if s.isChaosMode = true then d.count
           else 1) s d.xs d.rands) := fun s d => rfl
  constructor
  · intro s d h
    rw [hdef, if_pos h]
  · intro s d hc
    rw [hdef]
    by_cases h : GameScene.spawnMaxItems s.qualityLevel ≤
        s.pool.active.length
    · rw [if_pos h]
      exact le_max_left _ _
    · rw [if_neg h]
      have hcount : (if s.isChaosMode = true then d.count else 1) ≤ 2 := by
        split
        · exact hc
        · omega
      have hlen := spawnLoop_active_length
        (if s.isChaosMode = true then d.count else 1) s d.xs d.rands
      have hmax : GameScene.spawnMaxItems s.qualityLevel ≤ 15 :=
        spawnMaxItems_le_fifteen _
      have h16 : (GameScene.spawnLoop
          (if s.isChaosMode = true then d.count else 1)
          s d.xs d.rands).pool.active.length ≤ 16 := by
        omega
      exact le_trans h16 (le_max_right _ _)

/-- Witness for C10: a call at the 15-item cap changes nothing. -/
theorem c10_spawn_cap_witness :
    GameScene.spawnItem GameScene.spawnAtCap
      { count := 1, xs := [100], rands := [9 / 10] } =
      GameScene.spawnAtCap :=
  c10_spawn_cap.1 GameScene.spawnAtCap
    { count := 1, xs := [100], rands := [9 / 10] } (by decide)

end ChmpstrDrp
